import Mathlib

/-!
Verification of wasmi block-type resolution
(src/wasmi_v1/src/module2/compile/block_type.rs) and of the spec-test
context bookkeeping (src/tests/spec/v1/context.rs), as a shallow embedding.
-/

namespace Wasmi

/-- Value types of wasmi core, `core::ValueType`. -/
inductive ValueType where
  | i32
  | i64
  | f32
  | f64
deriving DecidableEq, Repr

/-- Raw value-type tags of `wasmparser::Type` as consumed by
`value_type_from_wasmparser` and by the conversion to `BlockType`:
the numeric value types, vector and reference types, and the
empty-block-type marker. -/
inductive WType where
  | i32
  | i64
  | f32
  | f64
  | v128
  | funcRef
  | externRef
  | emptyBlockType
deriving DecidableEq, Repr

/-- Raw block-type encoding `wasmparser::TypeOrFuncType`: either a single
value-type tag or a function-type index (a u32). -/
inductive TypeOrFuncType where
  | type (t : WType)
  | funcType (idx : Nat)
deriving DecidableEq, Repr

/-- Compilation errors (`ModuleError`), to the granularity the excerpt
exercises: the only failing arm of the block-type conversion is an
unsupported raw value type. -/
inductive ModuleError where
  | unsupportedValueType (t : WType)
deriving DecidableEq, Repr

/-- Modelled from the spec: `value_type_from_wasmparser` is referenced by the
excerpt but defined elsewhere in the repository. Per the spec, a raw encoding
carries "a single concrete value-type tag"; the four numeric value types
convert, every other tag is a compilation error. -/
def value_type_from_wasmparser : WType → Except ModuleError ValueType
  | WType.i32 => Except.ok ValueType.i32
  | WType.i64 => Except.ok ValueType.i64
  | WType.f32 => Except.ok ValueType.f32
  | WType.f64 => Except.ok ValueType.f64
  | t => Except.error (ModuleError.unsupportedValueType t)

/-- Index into a module's function-type table, `FuncTypeIdx` (wraps a u32). -/
structure FuncTypeIdx where
  val : Nat
deriving DecidableEq, Repr

/-- A function signature: ordered parameter and result type sequences. -/
structure FuncType where
  params : List ValueType
  results : List ValueType
deriving DecidableEq, Repr

/-- Rust `FuncType::params_results`: both sequences of the signature. -/
def FuncType.params_results (ft : FuncType) : List ValueType × List ValueType :=
  (ft.params, ft.results)

/-- Read-only view of a module's shared tables; the claims only exercise the
function-type table. -/
structure ModuleResources where
  func_types : List FuncType
deriving DecidableEq, Repr

/-- Modelled from the spec: `ModuleResources::get_func_type` is referenced by
the excerpt but defined elsewhere in the repository. Its Rust signature
returns a plain reference with no error channel, and the spec's data model
states a `FuncTypeIdx` "must be < table length whenever dereferenced"; an
out-of-range dereference is therefore a panic, modelled as `none`. -/
def ModuleResources.get_func_type (res : ModuleResources) (idx : FuncTypeIdx) :
    Option FuncType :=
  res.func_types[idx.val]?

/-- The inner workings of the block type, `BlockTypeInner`. -/
inductive BlockTypeInner where
  | empty
  | returns (t : ValueType)
  | funcType (idx : FuncTypeIdx)
deriving DecidableEq, Repr

/-- The type of a Wasm control flow block, `BlockType`. -/
structure BlockType where
  inner : BlockTypeInner
deriving DecidableEq, Repr

/-- Rust `BlockType::from_inner`. -/
def BlockType.from_inner (inner : BlockTypeInner) : BlockType :=
  BlockType.mk inner

/-- Rust `BlockType::empty`: no parameters and no results. -/
def BlockType.empty : BlockType :=
  BlockType.from_inner BlockTypeInner.empty

/-- Rust `BlockType::returns`: no parameters and a single result type. -/
def BlockType.returns (t : ValueType) : BlockType :=
  BlockType.from_inner (BlockTypeInner.returns t)

/-- Rust `BlockType::func_type`: general signature by table index. -/
def BlockType.func_type (idx : FuncTypeIdx) : BlockType :=
  BlockType.from_inner (BlockTypeInner.funcType idx)

/-- The conversion `TryFrom for BlockType` applied to a raw encoding: the
empty marker gives the empty block type, a value-type tag converts through
`value_type_from_wasmparser`, and a function-type index is wrapped verbatim
with no validation at this stage. -/
def BlockType.try_from : TypeOrFuncType → Except ModuleError BlockType
  | TypeOrFuncType.type WType.emptyBlockType => Except.ok BlockType.empty
  | TypeOrFuncType.type t =>
    match value_type_from_wasmparser t with
    | Except.error e => Except.error e
    | Except.ok rt => Except.ok (BlockType.returns rt)
  | TypeOrFuncType.funcType idx => Except.ok (BlockType.func_type (FuncTypeIdx.mk idx))

/-- Rust `BlockType::params`: empty and single-result variants give the empty
sequence, the general variant dereferences the table (`none` models the panic
of an out-of-range dereference). -/
def BlockType.params (bt : BlockType) (res : ModuleResources) :
    Option (List ValueType) :=
  match bt.inner with
  | BlockTypeInner.empty => some []
  | BlockTypeInner.returns _ => some []
  | BlockTypeInner.funcType idx => (res.get_func_type idx).map FuncType.params

/-- Rust `BlockType::results`: empty gives the empty sequence, single-result
gives the one-element sequence of that type, the general variant dereferences
the table. -/
def BlockType.results (bt : BlockType) (res : ModuleResources) :
    Option (List ValueType) :=
  match bt.inner with
  | BlockTypeInner.empty => some []
  | BlockTypeInner.returns t => some [t]
  | BlockTypeInner.funcType idx => (res.get_func_type idx).map FuncType.results

/-- Rust `BlockType::params_results`: the combined accessor, one table
dereference in the general case. -/
def BlockType.params_results (bt : BlockType) (res : ModuleResources) :
    Option (List ValueType × List ValueType) :=
  match bt.inner with
  | BlockTypeInner.empty => some ([], [])
  | BlockTypeInner.returns t => some ([], [t])
  | BlockTypeInner.funcType idx => (res.get_func_type idx).map FuncType.params_results

/-- An instance handle of the runtime object model. -/
structure Instance where
  id : Nat
deriving DecidableEq, Repr

/-- A compiled module artifact. -/
structure Module where
  id : Nat
deriving DecidableEq, Repr

/-- A pre-instance whose start function has not run, `InstancePre`. -/
structure InstancePre where
  id : Nat
deriving DecidableEq, Repr

/-- The lookup errors of the test context, `TestError`. -/
inductive TestError where
  | instanceNotRegistered (name : String)
  | noModuleInstancesFound
deriving DecidableEq, Repr

/-- Failures of the compile-and-instantiate pipeline, carried as an anyhow
error in the source: module compilation, linking, or start-function
finalization. -/
inductive HarnessError where
  | moduleError (code : Nat)
  | linkError (code : Nat)
  | startFnError (code : Nat)
deriving DecidableEq, Repr

/-- The bookkeeping state of `TestContext`: the module list, the
named-instances map (a HashMap, modelled as a latest-binding-first
association list), the last touched instance, and an abstract store state.
The engine, linker and profile fields are never read by the claims. -/
structure TestContext where
  store : Nat
  modules : List Module
  instances : List (String × Instance)
  last_instance : Option Instance
deriving DecidableEq, Repr

/-- Rust `TestContext::default` as far as bookkeeping goes: empty module
list, empty instances map, no last instance; the spectest definitions touch
only the linker and the store. -/
def TestContext.default (store0 : Nat) : TestContext :=
  TestContext.mk store0 [] [] none

/-- HashMap insert for the instances map: the new binding replaces any
earlier binding of the same name, modelled by prepending with lookup taking
the most recent binding. -/
def insertInstance (m : List (String × Instance)) (name : String)
    (inst : Instance) : List (String × Instance) :=
  (name, inst) :: m

/-- Rust `TestContext::compile_and_instantiate`. The three fallible pipeline
steps (module compilation, linking, and the no-start-function finalizer) are
outside the excerpt and are passed as parameters that may mutate the store
and fail; the bookkeeping mutations that follow them are translated from the
source in order: push the module, register the instance under the optional
id, record it as last instance. -/
def compile_and_instantiate (ctx : TestContext) (id : Option String)
    (module_new : Except HarnessError Module)
    (linker_instantiate : Nat → Module → Nat × Except HarnessError InstancePre)
    (ensure_no_start : Nat → InstancePre → Nat × Except HarnessError Instance) :
    TestContext × Except HarnessError Instance :=
  match module_new with
  | Except.error e => (ctx, Except.error e)
  | Except.ok m =>
    match linker_instantiate ctx.store m with
    | (store1, Except.error e) => ({ ctx with store := store1 }, Except.error e)
    | (store1, Except.ok pre) =>
      match ensure_no_start store1 pre with
      | (store2, Except.error e) => ({ ctx with store := store2 }, Except.error e)
      | (store2, Except.ok inst) =>
        let ctx1 : TestContext :=
          { ctx with store := store2, modules := ctx.modules ++ [m] }
        let ctx2 : TestContext :=
          match id with
          | some name => { ctx1 with instances := insertInstance ctx1.instances name inst }
          | none => ctx1
        ({ ctx2 with last_instance := some inst }, Except.ok inst)

/-- Rust `TestContext::instance_by_name`: the registered instance of that
name, else the instance-not-registered error carrying the name. -/
def instance_by_name (ctx : TestContext) (name : String) :
    Except TestError Instance :=
  match ctx.instances.lookup name with
  | some inst => Except.ok inst
  | none => Except.error (TestError.instanceNotRegistered name)

/-- Rust `TestContext::instance_by_name_or_last`: with a name, exactly
`instance_by_name`; without, the last instance, else the
no-module-instances-found error. -/
def instance_by_name_or_last (ctx : TestContext) (name : Option String) :
    Except TestError Instance :=
  match name with
  | some n => instance_by_name ctx n
  | none =>
    match ctx.last_instance with
    | some inst => Except.ok inst
    | none => Except.error TestError.noModuleInstancesFound

/-- On a successful run, `compile_and_instantiate` records the new instance
as the last instance and registers it under the given id, the rest of the
instances map unchanged. -/
theorem compile_and_instantiate_ok_shape (ctx ctx2 : TestContext)
    (id : Option String) (mn : Except HarnessError Module)
    (li : Nat → Module → Nat × Except HarnessError InstancePre)
    (en : Nat → InstancePre → Nat × Except HarnessError Instance)
    (inst : Instance)
    (h : compile_and_instantiate ctx id mn li en = (ctx2, Except.ok inst)) :
    ctx2.last_instance = some inst ∧
      (∀ name, id = some name →
        ctx2.instances = insertInstance ctx.instances name inst) ∧
      (id = none → ctx2.instances = ctx.instances) := by
  unfold compile_and_instantiate at h
  split at h
  · simp at h
  · split at h
    · simp at h
    · split at h
      · simp at h
      · simp only [Prod.mk.injEq, Except.ok.injEq] at h
        obtain ⟨hctx, hinst⟩ := h
        subst hinst
        subst hctx
        cases id with
        | none =>
          refine ⟨rfl, ?_, fun _ => rfl⟩
          intro name hn
          cases hn
        | some name =>
          refine ⟨rfl, ?_, ?_⟩
          · intro name2 hn
            cases hn
            rfl
          · intro hn
            cases hn

/-- Claim C1, counterexample: on the concrete module with an empty type
table and the general block type referencing index 0 (out of range),
params, results and params_results do not fail with a typed error
identifying the bad index — their return types carry no error value at all,
and the out-of-range table dereference fails (a panic, modelled as none). -/
theorem c1_query_typed_error_counterexample :
    BlockType.params (BlockType.func_type (FuncTypeIdx.mk 0))
        (ModuleResources.mk []) = none ∧
      BlockType.results (BlockType.func_type (FuncTypeIdx.mk 0))
        (ModuleResources.mk []) = none ∧
      BlockType.params_results (BlockType.func_type (FuncTypeIdx.mk 0))
        (ModuleResources.mk []) = none :=
  ⟨rfl, rfl, rfl⟩

/-- Claim C1, amended: for every module and every general block type whose
index is out of range for the module's type table, querying params, results
or params_results surfaces no typed error: the accessors have no error
channel and the out-of-range dereference in get_func_type panics, modelled
as returning none. -/
theorem c1_out_of_range_query_panics (res : ModuleResources) (idx : Nat)
    (h : res.func_types.length ≤ idx) :
    BlockType.params (BlockType.func_type (FuncTypeIdx.mk idx)) res = none ∧
      BlockType.results (BlockType.func_type (FuncTypeIdx.mk idx)) res = none ∧
      BlockType.params_results (BlockType.func_type (FuncTypeIdx.mk idx)) res
        = none := by
  have hg : res.func_types[idx]? = none := by
    rw [List.getElem?_eq_none_iff]
    exact h
  refine ⟨?_, ?_, ?_⟩ <;>
    simp [BlockType.params, BlockType.results, BlockType.params_results,
      BlockType.func_type, BlockType.from_inner, ModuleResources.get_func_type, hg]

/-- Claim C1, witness for the amended theorem at the empty type table and
index 0. -/
theorem c1_out_of_range_query_panics_witness :
    (ModuleResources.mk []).func_types.length ≤ 0 ∧
      (BlockType.params (BlockType.func_type (FuncTypeIdx.mk 0))
          (ModuleResources.mk []) = none ∧
        BlockType.results (BlockType.func_type (FuncTypeIdx.mk 0))
          (ModuleResources.mk []) = none ∧
        BlockType.params_results (BlockType.func_type (FuncTypeIdx.mk 0))
          (ModuleResources.mk []) = none) :=
  ⟨Nat.le_refl 0, c1_out_of_range_query_panics (ModuleResources.mk []) 0 (Nat.le_refl 0)⟩

/-- Claim C2: for every block type and every module resources value, the
combined accessor params_results returns exactly the pair obtained from
params and results independently (and fails exactly when they do). -/
theorem c2_params_results_agrees_with_separate (bt : BlockType)
    (res : ModuleResources) :
    BlockType.params_results bt res =
      (BlockType.params bt res).bind
        (fun p => (BlockType.results bt res).map (fun r => (p, r))) := by
  rcases bt with ⟨inner⟩
  cases inner with
  | empty => rfl
  | returns t => rfl
  | funcType idx =>
    simp only [BlockType.params, BlockType.results, BlockType.params_results]
    cases res.get_func_type idx with
    | none => rfl
    | some ft => rfl

/-- Claim C3: converting a raw general block encoding never fails at this
stage: for every function-type index in the u32 domain (structurally
well-formed by construction), the conversion succeeds and carries the index
verbatim into the general block type, full validation being deferred to
later resolution against the module resources. -/
theorem c3_from_encoding_defers_index_validation (idx : Nat)
    (h : idx < 2 ^ 32) :
    BlockType.try_from (TypeOrFuncType.funcType idx)
      = Except.ok (BlockType.func_type (FuncTypeIdx.mk idx)) :=
  rfl

/-- Claim C3, witness at index 7. -/
theorem c3_from_encoding_defers_index_validation_witness :
    7 < 2 ^ 32 ∧
      BlockType.try_from (TypeOrFuncType.funcType 7)
        = Except.ok (BlockType.func_type (FuncTypeIdx.mk 7)) :=
  ⟨by decide, c3_from_encoding_defers_index_validation 7 (by decide)⟩

/-- Claim C4: for every general block encoding whose index is valid with
table entry of parameter list P and result list R, params returns P,
results returns R, and params_results returns the pair (P, R), identical to
the separate accessors. -/
theorem c4_general_valid_index_accessors (res : ModuleResources) (idx : Nat)
    (P R : List ValueType)
    (h : res.func_types[idx]? = some (FuncType.mk P R)) :
    BlockType.params (BlockType.func_type (FuncTypeIdx.mk idx)) res = some P ∧
      BlockType.results (BlockType.func_type (FuncTypeIdx.mk idx)) res = some R ∧
      BlockType.params_results (BlockType.func_type (FuncTypeIdx.mk idx)) res
        = some (P, R) := by
  refine ⟨?_, ?_, ?_⟩ <;>
    simp [BlockType.params, BlockType.results, BlockType.params_results,
      BlockType.func_type, BlockType.from_inner, ModuleResources.get_func_type,
      FuncType.params_results, h]

/-- Claim C4, witness at a one-entry table with entry i32 to i64. -/
theorem c4_general_valid_index_accessors_witness :
    ((ModuleResources.mk
        [FuncType.mk [ValueType.i32] [ValueType.i64]]).func_types[0]?
      = some (FuncType.mk [ValueType.i32] [ValueType.i64])) ∧
      (BlockType.params (BlockType.func_type (FuncTypeIdx.mk 0))
          (ModuleResources.mk [FuncType.mk [ValueType.i32] [ValueType.i64]])
        = some [ValueType.i32] ∧
        BlockType.results (BlockType.func_type (FuncTypeIdx.mk 0))
          (ModuleResources.mk [FuncType.mk [ValueType.i32] [ValueType.i64]])
        = some [ValueType.i64] ∧
        BlockType.params_results (BlockType.func_type (FuncTypeIdx.mk 0))
          (ModuleResources.mk [FuncType.mk [ValueType.i32] [ValueType.i64]])
        = some ([ValueType.i32], [ValueType.i64])) :=
  ⟨rfl, c4_general_valid_index_accessors
    (ModuleResources.mk [FuncType.mk [ValueType.i32] [ValueType.i64]]) 0
    [ValueType.i32] [ValueType.i64] rfl⟩

/-- Claim C5: for every single-result block encoding with value type T and
every module resources value, results returns exactly the one-element
sequence of T, params returns the empty sequence, and params_results
returns the pair of the empty sequence and that one-element sequence. -/
theorem c5_single_result_accessors (t : ValueType) (res : ModuleResources) :
    BlockType.results (BlockType.returns t) res = some [t] ∧
      BlockType.params (BlockType.returns t) res = some [] ∧
      BlockType.params_results (BlockType.returns t) res = some ([], [t]) :=
  ⟨rfl, rfl, rfl⟩

/-- Claim C6: for every module resources value, params and results of the
empty block type both return empty sequences, independent of the resources
argument. -/
theorem c6_empty_accessors (res : ModuleResources) :
    BlockType.params BlockType.empty res = some [] ∧
      BlockType.results BlockType.empty res = some [] :=
  ⟨rfl, rfl⟩

/-- Claim C7: the two lookup failures are distinct error kinds: unnamed
lookup with no instance ever created fails with the no-instances error,
while named lookup of an unregistered name fails with the
instance-not-registered error carrying exactly that name, and the two
values are never equal. -/
theorem c7_distinct_lookup_errors (ctx : TestContext) (name : String)
    (hlast : ctx.last_instance = none)
    (hname : ctx.instances.lookup name = none) :
    instance_by_name_or_last ctx none
        = Except.error TestError.noModuleInstancesFound ∧
      instance_by_name ctx name
        = Except.error (TestError.instanceNotRegistered name) ∧
      TestError.noModuleInstancesFound ≠ TestError.instanceNotRegistered name := by
  refine ⟨?_, ?_, ?_⟩
  · simp [instance_by_name_or_last, hlast]
  · simp [instance_by_name, hname]
  · intro hcontra
    cases hcontra

/-- Claim C7, witness at the fresh default context and the name a. -/
theorem c7_distinct_lookup_errors_witness :
    (TestContext.default 0).last_instance = none ∧
      (TestContext.default 0).instances.lookup "a" = none ∧
      (instance_by_name_or_last (TestContext.default 0) none
          = Except.error TestError.noModuleInstancesFound ∧
        instance_by_name (TestContext.default 0) "a"
          = Except.error (TestError.instanceNotRegistered "a") ∧
        TestError.noModuleInstancesFound
          ≠ TestError.instanceNotRegistered "a") :=
  ⟨rfl, rfl, c7_distinct_lookup_errors (TestContext.default 0) "a" rfl rfl⟩

/-- Claim C8: after one successful compile_and_instantiate registered under
a name, unnamed lookup returns that instance; after a second successful one
under a different id, unnamed lookup returns the second instance while
named lookup of the first name still returns the first instance. -/
theorem c8_lookup_after_two_instances (ctx0 ctx1 ctx2 : TestContext)
    (name1 : String) (id2 : Option String) (inst1 inst2 : Instance)
    (mn1 mn2 : Except HarnessError Module)
    (li1 li2 : Nat → Module → Nat × Except HarnessError InstancePre)
    (en1 en2 : Nat → InstancePre → Nat × Except HarnessError Instance)
    (h1 : compile_and_instantiate ctx0 (some name1) mn1 li1 en1
      = (ctx1, Except.ok inst1))
    (h2 : compile_and_instantiate ctx1 id2 mn2 li2 en2
      = (ctx2, Except.ok inst2))
    (hdistinct : id2 ≠ some name1) :
    instance_by_name_or_last ctx1 none = Except.ok inst1 ∧
      instance_by_name_or_last ctx2 none = Except.ok inst2 ∧
      instance_by_name ctx2 name1 = Except.ok inst1 := by
  obtain ⟨hl1, hi1, -⟩ :=
    compile_and_instantiate_ok_shape ctx0 ctx1 (some name1) mn1 li1 en1 inst1 h1
  obtain ⟨hl2, hi2s, hi2n⟩ :=
    compile_and_instantiate_ok_shape ctx1 ctx2 id2 mn2 li2 en2 inst2 h2
  have hctx1 : ctx1.instances = insertInstance ctx0.instances name1 inst1 :=
    hi1 name1 rfl
  refine ⟨?_, ?_, ?_⟩
  · simp [instance_by_name_or_last, hl1]
  · simp [instance_by_name_or_last, hl2]
  · cases id2 with
    | none =>
      have hctx2 : ctx2.instances = ctx1.instances := hi2n rfl
      simp [instance_by_name, hctx2, hctx1, insertInstance, List.lookup]
    | some name2 =>
      have hctx2 : ctx2.instances = insertInstance ctx1.instances name2 inst2 :=
        hi2s name2 rfl
      have hne : (name1 == name2) = false := by
        rw [beq_eq_false_iff_ne]
        intro hcontra
        exact hdistinct (congrArg some hcontra.symm)
      simp [instance_by_name, hctx2, hctx1, insertInstance, List.lookup, hne]

/-- Claim C8, witness: from the fresh default context, instance 1 under the
name one, then instance 2 under the name two. -/
theorem c8_lookup_after_two_instances_witness :
    compile_and_instantiate (TestContext.default 0) (some "one")
        (Except.ok (Module.mk 1))
        (fun s _ => (s, Except.ok (InstancePre.mk 1)))
        (fun s _ => (s, Except.ok (Instance.mk 1)))
      = (TestContext.mk 0 [Module.mk 1] [("one", Instance.mk 1)]
          (some (Instance.mk 1)), Except.ok (Instance.mk 1)) ∧
      compile_and_instantiate
          (TestContext.mk 0 [Module.mk 1] [("one", Instance.mk 1)]
            (some (Instance.mk 1)))
          (some "two") (Except.ok (Module.mk 2))
          (fun s _ => (s, Except.ok (InstancePre.mk 2)))
          (fun s _ => (s, Except.ok (Instance.mk 2)))
        = (TestContext.mk 0 [Module.mk 1, Module.mk 2]
            [("two", Instance.mk 2), ("one", Instance.mk 1)]
            (some (Instance.mk 2)), Except.ok (Instance.mk 2)) ∧
      (some "two" : Option String) ≠ some "one" ∧
      (instance_by_name_or_last
            (TestContext.mk 0 [Module.mk 1] [("one", Instance.mk 1)]
              (some (Instance.mk 1))) none
          = Except.ok (Instance.mk 1) ∧
        instance_by_name_or_last
            (TestContext.mk 0 [Module.mk 1, Module.mk 2]
              [("two", Instance.mk 2), ("one", Instance.mk 1)]
              (some (Instance.mk 2))) none
          = Except.ok (Instance.mk 2) ∧
        instance_by_name
            (TestContext.mk 0 [Module.mk 1, Module.mk 2]
              [("two", Instance.mk 2), ("one", Instance.mk 1)]
              (some (Instance.mk 2))) "one"
          = Except.ok (Instance.mk 1)) :=
  ⟨rfl, rfl, by decide,
    c8_lookup_after_two_instances (TestContext.default 0)
      (TestContext.mk 0 [Module.mk 1] [("one", Instance.mk 1)]
        (some (Instance.mk 1)))
      (TestContext.mk 0 [Module.mk 1, Module.mk 2]
        [("two", Instance.mk 2), ("one", Instance.mk 1)]
        (some (Instance.mk 2)))
      "one" (some "two") (Instance.mk 1) (Instance.mk 2)
      (Except.ok (Module.mk 1)) (Except.ok (Module.mk 2))
      (fun s _ => (s, Except.ok (InstancePre.mk 1)))
      (fun s _ => (s, Except.ok (InstancePre.mk 2)))
      (fun s _ => (s, Except.ok (Instance.mk 1)))
      (fun s _ => (s, Except.ok (Instance.mk 2)))
      rfl rfl (by decide)⟩

/-- Claim C9: whenever compile_and_instantiate fails at any pipeline step,
the bookkeeping of the returned context is unchanged: module list,
named-instances map and last-instance record equal those of the input
context. -/
theorem c9_failure_preserves_bookkeeping (ctx : TestContext)
    (id : Option String) (mn : Except HarnessError Module)
    (li : Nat → Module → Nat × Except HarnessError InstancePre)
    (en : Nat → InstancePre → Nat × Except HarnessError Instance)
    (e : HarnessError)
    (h : (compile_and_instantiate ctx id mn li en).2 = Except.error e) :
    (compile_and_instantiate ctx id mn li en).1.modules = ctx.modules ∧
      (compile_and_instantiate ctx id mn li en).1.instances = ctx.instances ∧
      (compile_and_instantiate ctx id mn li en).1.last_instance
        = ctx.last_instance := by
  unfold compile_and_instantiate at h ⊢
  split at h
  · exact ⟨rfl, rfl, rfl⟩
  · split at h
    · exact ⟨rfl, rfl, rfl⟩
    · split at h
      · exact ⟨rfl, rfl, rfl⟩
      · simp at h

/-- Claim C9, witness: a failing module compilation leaves the default
context's bookkeeping untouched. -/
theorem c9_failure_preserves_bookkeeping_witness :
    ((compile_and_instantiate (TestContext.default 3) none
          (Except.error (HarnessError.moduleError 0))
          (fun s _ => (s, Except.ok (InstancePre.mk 0)))
          (fun s _ => (s, Except.ok (Instance.mk 0)))).2
        = Except.error (HarnessError.moduleError 0)) ∧
      ((compile_and_instantiate (TestContext.default 3) none
          (Except.error (HarnessError.moduleError 0))
          (fun s _ => (s, Except.ok (InstancePre.mk 0)))
          (fun s _ => (s, Except.ok (Instance.mk 0)))).1.modules
          = (TestContext.default 3).modules ∧
        (compile_and_instantiate (TestContext.default 3) none
          (Except.error (HarnessError.moduleError 0))
          (fun s _ => (s, Except.ok (InstancePre.mk 0)))
          (fun s _ => (s, Except.ok (Instance.mk 0)))).1.instances
          = (TestContext.default 3).instances ∧
        (compile_and_instantiate (TestContext.default 3) none
          (Except.error (HarnessError.moduleError 0))
          (fun s _ => (s, Except.ok (InstancePre.mk 0)))
          (fun s _ => (s, Except.ok (Instance.mk 0)))).1.last_instance
          = (TestContext.default 3).last_instance) :=
  ⟨rfl, c9_failure_preserves_bookkeeping (TestContext.default 3) none
    (Except.error (HarnessError.moduleError 0))
    (fun s _ => (s, Except.ok (InstancePre.mk 0)))
    (fun s _ => (s, Except.ok (Instance.mk 0)))
    (HarnessError.moduleError 0) rfl⟩

/-- Claim C10: named lookup never falls back to the last instance: for an
unregistered name, instance_by_name_or_last with that name fails with the
instance-not-registered error carrying that name, even when a last instance
is recorded. -/
theorem c10_named_lookup_never_falls_back (ctx : TestContext) (name : String)
    (inst : Instance)
    (hlast : ctx.last_instance = some inst)
    (hname : ctx.instances.lookup name = none) :
    instance_by_name_or_last ctx (some name)
      = Except.error (TestError.instanceNotRegistered name) := by
  simp [instance_by_name_or_last, instance_by_name, hname]

/-- Claim C10, witness: one registered instance under the name one, a
recorded last instance, and a lookup of the unregistered name two. -/
theorem c10_named_lookup_never_falls_back_witness :
    (TestContext.mk 0 [Module.mk 1] [("one", Instance.mk 1)]
        (some (Instance.mk 1))).last_instance = some (Instance.mk 1) ∧
      (TestContext.mk 0 [Module.mk 1] [("one", Instance.mk 1)]
        (some (Instance.mk 1))).instances.lookup "two" = none ∧
      instance_by_name_or_last
          (TestContext.mk 0 [Module.mk 1] [("one", Instance.mk 1)]
            (some (Instance.mk 1))) (some "two")
        = Except.error (TestError.instanceNotRegistered "two") :=
  ⟨rfl, by decide,
    c10_named_lookup_never_falls_back
      (TestContext.mk 0 [Module.mk 1] [("one", Instance.mk 1)]
        (some (Instance.mk 1))) "two" (Instance.mk 1) rfl (by decide)⟩

end Wasmi
